import Mathlib

/-!
Verification of the browser-side wine-recommender chat controller
(`static/app_backup.js`).  The file holds two near-duplicate variants:

* Variant A (first half of the file): endpoints `/next_question` (GET),
  `/answer` (POST), `/reset` (POST); options are regex-extracted from the
  message text via `/Options:\s*(.*)/i`; a module-level `isFetching` flag
  gates overlapping calls and the UI is disabled while a call is in flight.

* Variant B (second half): a single `/conversation` (POST) endpoint; options
  arrive as a structured `options` array and are rendered as buttons carrying
  the CSS class `option-button`; there is no request gate.

The embedding is a shallow one: the DOM is modelled as explicit state
(`StA` / `StB`), each `async` handler becomes a pure function from the
current state and the outcome of its network call (`Except Unit resp`,
where `.error` stands for a transport or JSON-parse failure caught by the
`catch` block) to the new state together with the list of network requests
the handler issued.  JavaScript truthiness of the optional JSON fields and
the semantics of `String.prototype.trim`, `String.prototype.split` and the
option-extraction regex are modelled explicitly below.
-/

/-! ### JavaScript value helpers -/

/-- Truthiness of an optional string field of a decoded JSON object:
`undefined` and `""` are falsy, every other string is truthy
(`if (data.error)`, `if (data.message)`, `if (!userId)`). -/
def jsTruthyS : Option String → Bool
  | none => false
  | some s => s != ""

/-- Truthiness of an optional boolean field (`data.done`): `undefined` and
`false` are falsy. -/
def jsTruthyB : Option Bool → Bool
  | none => false
  | some b => b

/-- Rendering of an optional string in a template literal:
`` `${data.message}` `` produces the text `"undefined"` when the field is
absent. -/
def jsDisplay : Option String → String
  | none => "undefined"
  | some s => s

/-- The expression `data.message || ""` (line 81 of variant A). -/
def jsOrEmpty : Option String → String
  | none => ""
  | some s => s

/-- The character class `\s` of a (non-unicode-mode) JavaScript regex, which
coincides with the set trimmed by `String.prototype.trim`: ASCII whitespace,
NBSP, the Unicode space separators, the line terminators and the BOM. -/
def isJsWhitespace (c : Char) : Bool :=
  c.val == 0x09 || c.val == 0x0A || c.val == 0x0B || c.val == 0x0C ||
  c.val == 0x0D || c.val == 0x20 || c.val == 0xA0 || c.val == 0x1680 ||
  (0x2000 ≤ c.val && c.val ≤ 0x200A) ||
  c.val == 0x2028 || c.val == 0x2029 || c.val == 0x202F || c.val == 0x205F ||
  c.val == 0x3000 || c.val == 0xFEFF

/-- JavaScript line terminators, which `.` in a regex does not match. -/
def isLineTerminator (c : Char) : Bool :=
  c.val == 0x0A || c.val == 0x0D || c.val == 0x2028 || c.val == 0x2029

/-- `String.prototype.toLowerCase()` on the sender tags, which are pure
ASCII (`"AI"`, `"You"`, `"System"`): per-character ASCII lowering. -/
def jsToLower (s : String) : String :=
  (s.toList.map Char.toLower).asString

/-- `String.prototype.trim` on a character list: strip leading and trailing
whitespace. -/
def jsTrimList (cs : List Char) : List Char :=
  ((cs.dropWhile isJsWhitespace).reverse.dropWhile isJsWhitespace).reverse

/-- `String.prototype.trim`: strip leading and trailing whitespace. -/
def jsTrim (s : String) : String :=
  (jsTrimList s.toList).asString

/-- `String.prototype.split(",")`: cut at every comma, keeping empty pieces;
the split of the empty string is `[""]`.  `acc` holds the current piece,
reversed. -/
def splitOnCommaAux : List Char → List Char → List (List Char)
  | [], acc => [acc.reverse]
  | c :: cs, acc =>
    if c == ',' then acc.reverse :: splitOnCommaAux cs []
    else splitOnCommaAux cs (c :: acc)

/-- `String.prototype.split(",")` over a character list. -/
def splitOnComma (cs : List Char) : List (List Char) :=
  splitOnCommaAux cs []

/-! ### The option-extraction regex of variant A

`(data.message || "").match(/Options:\s*(.*)/i)` (line 81): find the first
position where the text matches `Options:` case-insensitively, greedily skip
whitespace, and capture the rest of the line.  On a match, line 84 splits the
capture on `","` and trims each piece; one button is created per piece
(lines 85-93), with no filtering of empty pieces. -/

/-- Does the text start with `Options:`, compared case-insensitively?
The pattern is pure ASCII, and in a non-unicode-mode regex a non-ASCII
character never canonicalises to an ASCII one, so ASCII case folding is
exact here. -/
def startsWithMarker (cs : List Char) : Bool :=
  (cs.take 8).map Char.toLower == "options:".toList

/-- Left-to-right search for the first match of `Options:`; returns the text
following the matched marker. -/
def findMarkerRest : List Char → Option (List Char)
  | [] => none
  | c :: cs =>
    if startsWithMarker (c :: cs) then some ((c :: cs).drop 8)
    else findMarkerRest cs

/-- The capture group `\s*(.*)`: greedily skip whitespace, then take
everything up to the end of the line. -/
def captureAfterMarker (cs : List Char) : List Char :=
  (cs.dropWhile isJsWhitespace).takeWhile fun c => !(isLineTerminator c)

/-- The full option extraction of variant A: `none` when the regex does not
match, otherwise the comma-split, whitespace-trimmed pieces of the captured
remainder of the line (empty pieces included, as in the source). -/
def extractOptions (msg : String) : Option (List String) :=
  (findMarkerRest msg.toList).map fun rest =>
    (splitOnComma (captureAfterMarker rest)).map fun piece =>
      (jsTrimList piece).asString

/-! ### Variant A state -/

/-- A `<p>` element appended to the conversation log: its text content and
the CSS class added by `addMessage`. -/
structure Para where
  text : String
  cls : String
deriving DecidableEq, Repr

/-- A `<button>` element inside `optionsDiv`, with its `disabled` flag
(`disableUI` disables all current option buttons; `enableUI` does not
re-enable them). -/
structure OptBtn where
  label : String
  disabled : Bool
deriving DecidableEq, Repr

/-- The mutable browser state touched by variant A: the `isFetching` gate,
the children of `conversationDiv`, the buttons of `optionsDiv`, the value of
the free-text input, and the `disabled` flags of the input and the submit
button. -/
structure StA where
  isFetching : Bool
  conversation : List Para
  options : List OptBtn
  inputValue : String
  inputDisabled : Bool
  submitDisabled : Bool
deriving DecidableEq, Repr

/-- A network request issued through `fetch`.  Every request also carries the
`user_id` query parameter, recorded here as the first field. -/
inductive Request where
  | nextQuestion (userId : String)
  | answer (userId body : String)
  | reset (userId : String)
  | conversation (userId body : String)
deriving DecidableEq, Repr

/-- `GET /next_question` response shape: `{ message?, error? }`. -/
structure RespNQ where
  message : Option String
  error : Option String
deriving DecidableEq, Repr

/-- `POST /answer` response shape: `{ message?, done?, error? }`.  The
`error` field is carried so that responses bearing one can be discussed;
`sendAnswer` never reads it, exactly as in the source. -/
structure RespAns where
  message : Option String
  done : Option Bool
  error : Option String
deriving DecidableEq, Repr

/-- `POST /reset` response shape: `{ message?, error? }`.  As with
`RespAns`, the `error` field exists but `resetRecommender` never reads it. -/
structure RespReset where
  message : Option String
  error : Option String
deriving DecidableEq, Repr

/-- `addMessage(sender, text)` (variant A, lines 35-41): append a `<p>` with
text `` `${sender}: ${text}` `` and CSS class `sender.toLowerCase()`. -/
def addMessage (s : StA) (sender text : String) : StA :=
  { s with conversation :=
      s.conversation ++ [⟨sender ++ ": " ++ text, jsToLower sender⟩] }

/-- `disableUI()` (lines 46-51): disable the input, the submit button and
every currently rendered option button. -/
def disableUI (s : StA) : StA :=
  { s with inputDisabled := true, submitDisabled := true,
           options := s.options.map fun b => { b with disabled := true } }

/-- `enableUI()` (lines 52-55): re-enable the input and the submit button
(option buttons are left as they are). -/
def enableUI (s : StA) : StA :=
  { s with inputDisabled := false, submitDisabled := false }

/-- `getNextQuestion()` (lines 60-103).  The argument `outcome` is the
result of `await fetch(...)` followed by `await resp.json()`: `.error ()`
when the `catch` block runs, `.ok data` otherwise.  Returns the new state
and the requests issued (the guarded early return issues none). -/
def getNextQuestion (uid : String) (s : StA) (outcome : Except Unit RespNQ) :
    StA × List Request :=
  if s.isFetching then (s, [])
  else
    let s1 := disableUI { s with isFetching := true }
    let s2 :=
      match outcome with
      | .error _ => addMessage s1 "System" "Unable to connect to server."
      | .ok data =>
        let sa :=
          if jsTruthyS data.error then
            addMessage s1 "System" (jsDisplay data.error)
          else
            addMessage s1 "AI" (jsDisplay data.message)
        let sb := { sa with options := [] }
        match extractOptions (jsOrEmpty data.message) with
        | some opts => { sb with options := opts.map fun l => ⟨l, false⟩ }
        | none => sb
    ({ enableUI s2 with isFetching := false }, [.nextQuestion uid])

/-- `sendAnswer(answer)` (lines 108-136).  `chainedOutcome` is the outcome
the chained `getNextQuestion()` call of line 126 would observe if it reached
its `fetch`. -/
def sendAnswer (uid answer : String) (s : StA) (outcome : Except Unit RespAns)
    (chainedOutcome : Except Unit RespNQ) : StA × List Request :=
  if s.isFetching then (s, [])
  else
    let s1 := disableUI { s with isFetching := true }
    let r :=
      match outcome with
      | .error _ => (addMessage s1 "System" "Unable to connect to server.", [])
      | .ok data =>
        let sa := addMessage s1 "AI" (jsDisplay data.message)
        if jsTruthyB data.done then (sa, [])
        else getNextQuestion uid sa chainedOutcome
    ({ enableUI r.1 with isFetching := false }, .answer uid answer :: r.2)

/-- `resetRecommender()` (lines 141-175).  `chainedOutcome` is the outcome
the chained `getNextQuestion()` call of line 166 would observe if it reached
its `fetch`. -/
def resetRecommender (uid : String) (s : StA) (outcome : Except Unit RespReset)
    (chainedOutcome : Except Unit RespNQ) : StA × List Request :=
  if s.isFetching then (s, [])
  else
    let s1 := disableUI { s with isFetching := true }
    let r :=
      match outcome with
      | .error _ => (addMessage s1 "System" "Unable to connect to server.", [])
      | .ok data =>
        let sa := { s1 with conversation := [], options := [], inputValue := "" }
        let sb :=
          if jsTruthyS data.message then
            addMessage sa "System" (jsDisplay data.message)
          else
            addMessage sa "System" "Session reset. Starting fresh..."
        getNextQuestion uid sb chainedOutcome
    ({ enableUI r.1 with isFetching := false }, .reset uid :: r.2)

/-- `handleSubmit()` (lines 180-187): trim the input; on empty text do
nothing, otherwise append the `You` line, clear the input, and call
`sendAnswer`. -/
def handleSubmit (uid : String) (s : StA) (outcome : Except Unit RespAns)
    (chainedOutcome : Except Unit RespNQ) : StA × List Request :=
  if jsTrim s.inputValue == "" then (s, [])
  else
    sendAnswer uid (jsTrim s.inputValue)
      { addMessage s "You" (jsTrim s.inputValue) with inputValue := "" }
      outcome chainedOutcome

/-! ### Variant B state -/

/-- A child of `conversationDiv` in variant B: either a `<p>` message line or
an option `<button>` carrying the CSS class `option-button` (variant B
appends the option buttons to the conversation element itself). -/
inductive NodeB where
  | para (text cls : String)
  | optionButton (label : String)
deriving DecidableEq, Repr

/-- Does this node carry the `option-button` class? -/
def isOptionButton : NodeB → Bool
  | .optionButton _ => true
  | _ => false

/-- The labels of the currently rendered option buttons, in document order. -/
def optionButtonLabels (l : List NodeB) : List String :=
  l.filterMap fun n =>
    match n with
    | .optionButton lab => some lab
    | _ => none

/-- The mutable browser state touched by variant B: the children of
`conversationDiv` and the value of the free-text input.  Variant B has no
request gate and never disables its controls. -/
structure StB where
  conversation : List NodeB
  inputValue : String
deriving DecidableEq, Repr

/-- `POST /conversation` response shape: `{ message?, options?, error? }`. -/
structure RespConv where
  message : Option String
  options : Option (List String)
  error : Option String
deriving DecidableEq, Repr

/-- `addMessage(sender, text)` (variant B, lines 210-216): same append as in
variant A. -/
def addMessageB (s : StB) (sender text : String) : StB :=
  { s with conversation :=
      s.conversation ++ [.para (sender ++ ": " ++ text) (jsToLower sender)] }

/-- `document.querySelectorAll(".option-button").forEach(btn => btn.remove())`
(lines 220 and 265): remove every rendered option button. -/
def removeOptionButtons (s : StB) : StB :=
  { s with conversation := s.conversation.filter fun n => !(isOptionButton n) }

/-- `addOptionButtons(options)` (lines 218-234): remove the old buttons, then
append one `option-button` per entry of `options`. -/
def addOptionButtons (s : StB) (options : List String) : StB :=
  { s with conversation :=
      (s.conversation.filter fun n => !(isOptionButton n)) ++
        options.map NodeB.optionButton }

/-- The synchronous prefix of `sendChat(text)` (lines 245-251): everything
that runs before the function first suspends at `await fetch`.  There is no
gate check, so the `POST /conversation` request is issued unconditionally,
and no state is mutated before the suspension. -/
def sendChatStart (uid text : String) (s : StB) : StB × List Request :=
  (s, [.conversation uid text])

/-- The continuation of `sendChat` after the response settles
(lines 252-270). -/
def sendChatFinish (s : StB) (outcome : Except Unit RespConv) : StB :=
  match outcome with
  | .error _ => addMessageB s "System" "Error connecting to server."
  | .ok data =>
    if jsTruthyS data.error then addMessageB s "System" (jsDisplay data.error)
    else
      let s1 := addMessageB s "AI" (jsDisplay data.message)
      match data.options with
      | some opts =>
        if opts.length > 0 then addOptionButtons s1 opts
        else removeOptionButtons s1
      | none => removeOptionButtons s1

/-- `sendChat(text)` (lines 245-271) run to completion against a settled
outcome. -/
def sendChat (uid text : String) (s : StB) (outcome : Except Unit RespConv) :
    StB × List Request :=
  (sendChatFinish (sendChatStart uid text s).1 outcome,
   (sendChatStart uid text s).2)

/-- `handleSend()` (lines 236-243): trim the input; on empty text do nothing,
otherwise append the `You` line, clear the input, and call `sendChat`. -/
def handleSend (uid : String) (s : StB) (outcome : Except Unit RespConv) :
    StB × List Request :=
  if jsTrim s.inputValue == "" then (s, [])
  else
    sendChat uid (jsTrim s.inputValue)
      { addMessageB s "You" (jsTrim s.inputValue) with inputValue := "" }
      outcome

/-- `handleReset()` (variant B, lines 273-276): send the literal text
`"reset"` through the ordinary chat path. -/
def handleReset (uid : String) (s : StB) (outcome : Except Unit RespConv) :
    StB × List Request :=
  sendChat uid "reset" (addMessageB s "You" "reset") outcome

/-! ### The identity store (lines 4-8 and 188-192)

`let userId = localStorage.getItem("wine_userId"); if (!userId) { userId =
Date.now().toString(); localStorage.setItem("wine_userId", userId); }` -/

/-- The identity store.  `stored` is the current content of the
`wine_userId` key of `localStorage` (`none` = key absent) and `now` is the
value of `Date.now()` in milliseconds.  Returns the identifier the script
uses together with the key content after the run. -/
def getOrCreateUserId (stored : Option String) (now : Nat) :
    String × Option String :=
  if jsTruthyS stored then (stored.getD "", stored)
  else (Nat.repr now, some (Nat.repr now))

/-! ### Repeated transcript appends (for the append-only property) -/

/-- Run a sequence of `addMessage(sender, text)` calls, variant A. -/
def runAddMessages (s : StA) (calls : List (String × String)) : StA :=
  calls.foldl (fun t c => addMessage t c.1 c.2) s

/-- Run a sequence of `addMessage(sender, text)` calls, variant B. -/
def runAddMessagesB (s : StB) (calls : List (String × String)) : StB :=
  calls.foldl (fun t c => addMessageB t c.1 c.2) s

/-! ### Concrete states used in the examples below -/

/-- The idle variant-A state right after page load: nothing rendered, no call
in flight, controls enabled. -/
def sReady : StA := ⟨false, [], [], "", false, false⟩

/-- A variant-A state mid-session: some transcript, one option button, text
typed into the input, no call in flight. -/
def sMidSession : StA :=
  ⟨false, [⟨"AI: Q1", "ai"⟩, ⟨"You: red", "you"⟩], [⟨"Red", false⟩],
   "typed", false, false⟩

/-- The empty variant-B state. -/
def sB0 : StB := ⟨[], ""⟩

/-! ### Helper lemmas -/

/-- `Nat.toDigitsCore` never shrinks a nonempty accumulator to nothing. -/
lemma toDigitsCore_ne_nil (b : Nat) :
    ∀ (fuel n : Nat) (ds : List Char), ds ≠ [] →
      Nat.toDigitsCore b fuel n ds ≠ [] := by
  intro fuel
  induction fuel with
  | zero => intro n ds h; simpa [Nat.toDigitsCore] using h
  | succ f ih =>
    intro n ds _
    simp only [Nat.toDigitsCore]
    split
    · simp
    · exact ih _ _ (by simp)

/-- The decimal rendering of a natural number is never the empty string, so
the identifier written by the identity store is always truthy. -/
lemma natRepr_ne_empty (n : Nat) : Nat.repr n ≠ "" := by
  have h : Nat.toDigits 10 n ≠ [] := by
    simp only [Nat.toDigits, Nat.toDigitsCore]
    split
    · simp
    · exact toDigitsCore_ne_nil 10 _ _ _ (by simp)
  intro hc
  apply h
  simpa [Nat.repr, List.asString, String.ext_iff] using hc

lemma addMessage_isFetching (s : StA) (a b : String) :
    (addMessage s a b).isFetching = s.isFetching := rfl

lemma disableUI_isFetching (s : StA) : (disableUI s).isFetching = s.isFetching := rfl

/-- The gate of `getNextQuestion`: entered with a call in flight, it is a
silent no-op issuing no request. -/
lemma getNextQuestion_gated (uid : String) (s : StA)
    (o : Except Unit RespNQ) (h : s.isFetching = true) :
    getNextQuestion uid s o = (s, []) := by
  simp [getNextQuestion, h]

/-- The gate of `sendAnswer`. -/
lemma sendAnswer_gated (uid ans : String) (s : StA) (o : Except Unit RespAns)
    (co : Except Unit RespNQ) (h : s.isFetching = true) :
    sendAnswer uid ans s o co = (s, []) := by
  simp [sendAnswer, h]

/-- The gate of `resetRecommender`. -/
lemma resetRecommender_gated (uid : String) (s : StA)
    (o : Except Unit RespReset) (co : Except Unit RespNQ)
    (h : s.isFetching = true) :
    resetRecommender uid s o co = (s, []) := by
  simp [resetRecommender, h]

/-- Shape of a non-gated `getNextQuestion` run: some intermediate state is
pushed through the `finally` block, and exactly the one GET request is
issued. -/
lemma getNextQuestion_shape (uid : String) (s : StA) (o : Except Unit RespNQ)
    (h : s.isFetching = false) :
    ∃ s2, getNextQuestion uid s o =
      ({ enableUI s2 with isFetching := false }, [.nextQuestion uid]) := by
  refine ⟨?_, ?_⟩
  · exact
      match o with
      | .error _ =>
        addMessage (disableUI { s with isFetching := true }) "System"
          "Unable to connect to server."
      | .ok data =>
        let sa :=
          if jsTruthyS data.error then
            addMessage (disableUI { s with isFetching := true }) "System"
              (jsDisplay data.error)
          else
            addMessage (disableUI { s with isFetching := true }) "AI"
              (jsDisplay data.message)
        let sb := { sa with options := [] }
        match extractOptions (jsOrEmpty data.message) with
        | some opts => { sb with options := opts.map fun l => ⟨l, false⟩ }
        | none => sb
  · simp only [getNextQuestion, h]
    rfl

/-- Shape of a non-gated `sendAnswer` run: the chained `getNextQuestion` of
line 126 always hits its gate (the flag is still set), so exactly the one
POST request is issued. -/
lemma sendAnswer_shape (uid ans : String) (s : StA) (o : Except Unit RespAns)
    (co : Except Unit RespNQ) (h : s.isFetching = false) :
    ∃ s2, sendAnswer uid ans s o co =
      ({ enableUI s2 with isFetching := false }, [.answer uid ans]) := by
  cases o with
  | error e => exact ⟨_, by simp only [sendAnswer, h]; rfl⟩
  | ok data =>
    cases hd : jsTruthyB data.done with
    | true => exact ⟨_, by simp only [sendAnswer, h, hd]; rfl⟩
    | false =>
      refine ⟨addMessage (disableUI { s with isFetching := true }) "AI"
        (jsDisplay data.message), ?_⟩
      have hg : getNextQuestion uid
          (addMessage (disableUI { s with isFetching := true }) "AI"
            (jsDisplay data.message)) co =
          (addMessage (disableUI { s with isFetching := true }) "AI"
            (jsDisplay data.message), []) :=
        getNextQuestion_gated _ _ _ rfl
      simp only [sendAnswer, h, hd, Bool.false_eq_true, if_false, hg]

/-- Shape of a non-gated `resetRecommender` run: the chained
`getNextQuestion` of line 166 always hits its gate, so exactly the one POST
request is issued. -/
lemma resetRecommender_shape (uid : String) (s : StA)
    (o : Except Unit RespReset) (co : Except Unit RespNQ)
    (h : s.isFetching = false) :
    ∃ s2, resetRecommender uid s o co =
      ({ enableUI s2 with isFetching := false }, [.reset uid]) := by
  cases o with
  | error e => exact ⟨_, by simp only [resetRecommender, h]; rfl⟩
  | ok data =>
    set sb :=
      if jsTruthyS data.message then
        addMessage { disableUI { s with isFetching := true } with
          conversation := [], options := [], inputValue := "" } "System"
          (jsDisplay data.message)
      else
        addMessage { disableUI { s with isFetching := true } with
          conversation := [], options := [], inputValue := "" } "System"
          "Session reset. Starting fresh..." with hsb
    refine ⟨sb, ?_⟩
    have hfetch : sb.isFetching = true := by
      rw [hsb]; split <;> rfl
    have hg : getNextQuestion uid sb co = (sb, []) :=
      getNextQuestion_gated _ _ _ hfetch
    simp only [resetRecommender, h, Bool.false_eq_true, if_false]
    rw [hsb]
    split <;> simp_all [hg]

/-! ### Claim C1 -/

/-- Claim C1 (code bug): the claim says a `done:false` answer response
immediately triggers another fetch of `/next_question` within the same flow.
The source does call `getNextQuestion()` (line 126), but at that point
`isFetching` is still `true` (it is cleared only in the `finally` block of
`sendAnswer`, line 133), so the chained call returns at its guard (line 61)
and no `/next_question` request is ever issued: the whole flow issues
exactly the one `/answer` request, whatever the chained outcome would have
been. -/
theorem c1_chained_fetch_never_issued :
    (sendAnswer "u" "red" sReady (.ok ⟨some "Next one?", some false, none⟩)
        (.ok ⟨some "Question 2", none⟩)).2 = [Request.answer "u" "red"] ∧
    Request.nextQuestion "u" ∉
      (sendAnswer "u" "red" sReady (.ok ⟨some "Next one?", some false, none⟩)
        (.ok ⟨some "Question 2", none⟩)).2 := by
  decide

/-! ### Claim C4 -/

/-- Claim C4 (code bug): a successful reset does clear the transcript, the
option set and the input, and shows the server message (or the fallback
string when the response has no `message`), but the claimed re-issued
`/next_question` request never happens: the chained `getNextQuestion()` of
line 166 runs while `isFetching` is still `true` and returns at its guard,
so the flow issues exactly the one `/reset` request. -/
theorem c4_reset_clears_but_chained_fetch_never_issued :
    resetRecommender "u" sMidSession (.ok ⟨some "All reset.", none⟩)
        (.ok ⟨some "Q1", none⟩)
      = (⟨false, [⟨"System: All reset.", "system"⟩], [], "", false, false⟩,
         [Request.reset "u"]) ∧
    resetRecommender "u" sMidSession (.ok ⟨none, none⟩)
        (.ok ⟨some "Q1", none⟩)
      = (⟨false, [⟨"System: Session reset. Starting fresh...", "system"⟩],
          [], "", false, false⟩,
         [Request.reset "u"]) := by
  decide

/-! ### Claim C2 -/

/-- Claim C2 (counterexample): variant B's `sendChat` has no request gate.
The first trigger issues its `/conversation` request and suspends awaiting
the response; before that response settles, a second trigger runs its
synchronous prefix and issues a second network request instead of being
dropped. -/
theorem c2_counterexample_sendchat_unmetered :
    (sendChatStart "u" "hello" sB0).2 = [Request.conversation "u" "hello"] ∧
    (sendChatStart "u" "again" (sendChatStart "u" "hello" sB0).1).2
      = [Request.conversation "u" "again"] := by
  decide

/-- Claim C2 (amended): the single-flight guarantee holds for the three
variant-A operations only — triggered while a call is in flight
(`isFetching = true`) each is a silent no-op issuing no request and leaving
the state untouched, and once a call settles the flag is `false` again so a
subsequent trigger issues its one request normally.  Variant B's send-chat
has no gate: every trigger issues its `POST /conversation` request. -/
theorem c2_request_gate_variant_a_only :
    ∀ (uid ans text : String) (s : StA) (sB : StB)
      (o1 : Except Unit RespNQ) (o2 : Except Unit RespAns)
      (o3 : Except Unit RespReset),
      getNextQuestion uid { s with isFetching := true } o1
        = ({ s with isFetching := true }, []) ∧
      sendAnswer uid ans { s with isFetching := true } o2 o1
        = ({ s with isFetching := true }, []) ∧
      resetRecommender uid { s with isFetching := true } o3 o1
        = ({ s with isFetching := true }, []) ∧
      (getNextQuestion uid { s with isFetching := false } o1).2
        = [.nextQuestion uid] ∧
      (getNextQuestion uid { s with isFetching := false } o1).1.isFetching
        = false ∧
      (sendAnswer uid ans { s with isFetching := false } o2 o1).2
        = [.answer uid ans] ∧
      (sendAnswer uid ans { s with isFetching := false } o2 o1).1.isFetching
        = false ∧
      (resetRecommender uid { s with isFetching := false } o3 o1).2
        = [.reset uid] ∧
      (resetRecommender uid { s with isFetching := false } o3 o1).1.isFetching
        = false ∧
      (sendChatStart uid text sB).2 = [.conversation uid text] := by
  intro uid ans text s sB o1 o2 o3
  obtain ⟨g1, hg1⟩ :=
    getNextQuestion_shape uid { s with isFetching := false } o1 rfl
  obtain ⟨g2, hg2⟩ :=
    sendAnswer_shape uid ans { s with isFetching := false } o2 o1 rfl
  obtain ⟨g3, hg3⟩ :=
    resetRecommender_shape uid { s with isFetching := false } o3 o1 rfl
  exact ⟨getNextQuestion_gated _ _ _ rfl, sendAnswer_gated _ _ _ _ _ rfl,
    resetRecommender_gated _ _ _ _ rfl, by rw [hg1], by rw [hg1],
    by rw [hg2], by rw [hg2], by rw [hg3], by rw [hg3], rfl⟩

/-! ### Claim C3 -/

/-- Claim C3 (counterexample): an `/answer` response carrying the error
string `"boom"` is not surfaced as a System message — `sendAnswer` never
reads `data.error` and renders the `message` field as an AI line, so the
transcript after the call holds exactly one line, `"AI: hi"` with class
`"ai"`, and no System line at all. -/
theorem c3_counterexample_sendanswer_ignores_error :
    (sendAnswer "u" "red" sReady (.ok ⟨some "hi", some true, some "boom"⟩)
        (.error ())).1.conversation = [⟨"AI: hi", "ai"⟩] := by
  decide

/-- Claim C3 (amended): a truthy `error` field is rendered as a System
message by `getNextQuestion` (variant A) and by `sendChat` (variant B); the
other two operations never inspect the field — `sendAnswer` and
`resetRecommender` behave identically whether or not the response carries
an `error` string. -/
theorem c3_error_rendering (uid ans : String) (s : StA) (sB : StB) (e : String)
    (m : Option String) (d : Option Bool) (o : Option (List String))
    (co : Except Unit RespNQ) (h : e ≠ "") :
    ((getNextQuestion uid { s with isFetching := false }
        (.ok ⟨m, some e⟩)).1.conversation
      = s.conversation ++ [⟨"System: " ++ e, "system"⟩]) ∧
    ((sendChat uid ans sB (.ok ⟨m, o, some e⟩)).1
      = addMessageB sB "System" e) ∧
    (sendAnswer uid ans s (.ok ⟨m, d, some e⟩) co
      = sendAnswer uid ans s (.ok ⟨m, d, none⟩) co) ∧
    (resetRecommender uid s (.ok ⟨m, some e⟩) co
      = resetRecommender uid s (.ok ⟨m, none⟩) co) := by
  have ht : jsTruthyS (some e) = true := by simp [jsTruthyS, h]
  have hl : jsToLower "System" = "system" := rfl
  refine ⟨?_, ?_, rfl, rfl⟩
  · simp only [getNextQuestion, Bool.false_eq_true, if_false, ht, if_true,
      jsDisplay]
    cases hx : extractOptions (jsOrEmpty m) <;>
      simp [hx, addMessage, disableUI, enableUI, hl]
  · simp [sendChat, sendChatStart, sendChatFinish, ht, jsDisplay]

/-- Concrete instance of the amended claim C3. -/
theorem c3_error_rendering_witness :
    ((getNextQuestion "u" { sReady with isFetching := false }
        (.ok ⟨some "hi", some "boom"⟩)).1.conversation
      = sReady.conversation ++ [⟨"System: boom", "system"⟩]) ∧
    ((sendChat "u" "red" sB0 (.ok ⟨some "hi", none, some "boom"⟩)).1
      = addMessageB sB0 "System" "boom") ∧
    (sendAnswer "u" "red" sReady (.ok ⟨some "hi", some true, some "boom"⟩)
        (.error ())
      = sendAnswer "u" "red" sReady (.ok ⟨some "hi", some true, none⟩)
        (.error ())) ∧
    (resetRecommender "u" sReady (.ok ⟨some "hi", some "boom"⟩) (.error ())
      = resetRecommender "u" sReady (.ok ⟨some "hi", none⟩) (.error ())) :=
  c3_error_rendering "u" "red" sReady sB0 "boom" (some "hi") (some true) none
    (.error ()) (by decide)

/-! ### Claim C5 -/

/-- Claim C5 (counterexample): empty pieces do produce buttons.  The message
`"Options: Red,,"` matches the marker, splits into `["Red", "", ""]`, and
`opts.forEach` (line 85) creates one button per piece with no filtering, so
three buttons are rendered, two of them with an empty label — not one
button as the claim's "empty pieces produce no button" would require. -/
theorem c5_counterexample_empty_pieces_render :
    (getNextQuestion "u" sReady (.ok ⟨some "Options: Red,,", none⟩)).1.options
      = [⟨"Red", false⟩, ⟨"", false⟩, ⟨"", false⟩] := by
  decide

/-- Claim C5 (amended): given a case-insensitive `Options:` marker, the
remainder of the line is split on commas and each piece is trimmed, and one
button is rendered per piece — including empty pieces.  On the message
`"Pick a color. Options: Red, White, Rosé"` the extracted list is exactly
`["Red", "White", "Rosé"]` in order; on a message with no marker nothing is
extracted and no options are rendered. -/
theorem c5_option_extraction :
    extractOptions "Pick a color. Options: Red, White, Rosé"
      = some ["Red", "White", "Rosé"] ∧
    extractOptions "Pick a color." = none ∧
    ∀ (uid : String) (s : StA) (m e : Option String),
      (getNextQuestion uid { s with isFetching := false }
          (.ok ⟨m, e⟩)).1.options
        = ((extractOptions (jsOrEmpty m)).getD []).map fun l =>
            (⟨l, false⟩ : OptBtn) := by
  refine ⟨by decide, by decide, ?_⟩
  intro uid s m e
  simp only [getNextQuestion, Bool.false_eq_true, if_false]
  cases hx : extractOptions (jsOrEmpty m) <;>
    cases he : jsTruthyS e <;>
      simp [hx, he, addMessage, disableUI, enableUI]

/-! ### Claim C6 -/

/-- The UI properties claim C6 is about: no call in flight, free-text input
and submit control enabled. -/
def uiIdle (t : StA) : Prop :=
  t.isFetching = false ∧ t.inputDisabled = false ∧ t.submitDisabled = false

/-- Claim C6 (confirmed): every variant-A operation that actually runs (the
gate is clear when it is triggered) ends — on success, on a server-reported
error, and on a thrown transport/parse failure alike — with the
`isFetching` flag cleared and the input and submit control re-enabled,
because `isFetching = false; enableUI();` sits in the `finally` block of
each handler. -/
theorem c6_ui_always_reenabled :
    ∀ (uid ans : String) (s : StA) (o1 : Except Unit RespNQ)
      (o2 : Except Unit RespAns) (o3 : Except Unit RespReset),
      uiIdle (getNextQuestion uid { s with isFetching := false } o1).1 ∧
      uiIdle (sendAnswer uid ans { s with isFetching := false } o2 o1).1 ∧
      uiIdle (resetRecommender uid { s with isFetching := false } o3 o1).1 := by
  intro uid ans s o1 o2 o3
  obtain ⟨g1, hg1⟩ :=
    getNextQuestion_shape uid { s with isFetching := false } o1 rfl
  obtain ⟨g2, hg2⟩ :=
    sendAnswer_shape uid ans { s with isFetching := false } o2 o1 rfl
  obtain ⟨g3, hg3⟩ :=
    resetRecommender_shape uid { s with isFetching := false } o3 o1 rfl
  rw [hg1, hg2, hg3]
  simp [uiIdle, enableUI]

/-! ### Claim C7 -/

lemma optionButtonLabels_append (a b : List NodeB) :
    optionButtonLabels (a ++ b)
      = optionButtonLabels a ++ optionButtonLabels b := by
  simp [optionButtonLabels, List.filterMap_append]

lemma optionButtonLabels_removeAll (l : List NodeB) :
    optionButtonLabels (l.filter fun n => !(isOptionButton n)) = [] := by
  induction l with
  | nil => rfl
  | cons x xs ih =>
    cases x with
    | para t c =>
      simpa [optionButtonLabels, List.filter_cons, isOptionButton,
        List.filterMap_cons] using ih
    | optionButton lab =>
      simpa [optionButtonLabels, List.filter_cons, isOptionButton] using ih

lemma optionButtonLabels_map (opts : List String) :
    optionButtonLabels (opts.map NodeB.optionButton) = opts := by
  induction opts with
  | nil => rfl
  | cons o os ih => simpa [optionButtonLabels, List.filterMap_cons] using ih

lemma optionButtonLabels_addOptionButtons (s : StB) (opts : List String) :
    optionButtonLabels (addOptionButtons s opts).conversation = opts := by
  simp [addOptionButtons, optionButtonLabels_append,
    optionButtonLabels_removeAll, optionButtonLabels_map]

/-- Claim C7 (confirmed): in variant B every render wholesale-replaces the
option set — `addOptionButtons` first removes every node carrying the
`option-button` class and then appends one button per new option; rendering
`["Red", "White"]` and then `["Rosé"]` leaves exactly the one button
labelled `"Rosé"`; and a successful response whose `options` list is absent
or empty removes every option button. -/
theorem c7_option_replace_semantics :
    (∀ (s : StB) (opts : List String),
      (addOptionButtons s opts).conversation
        = (s.conversation.filter fun n => !(isOptionButton n)) ++
            opts.map NodeB.optionButton) ∧
    (∀ s : StB,
      optionButtonLabels
          (addOptionButtons (addOptionButtons s ["Red", "White"])
            ["Rosé"]).conversation = ["Rosé"]) ∧
    (∀ (uid t : String) (s : StB) (m : Option String),
      optionButtonLabels
          (sendChat uid t s (.ok ⟨m, none, none⟩)).1.conversation = [] ∧
      optionButtonLabels
          (sendChat uid t s (.ok ⟨m, some [], none⟩)).1.conversation = []) := by
  refine ⟨fun s opts => rfl, fun s => ?_, fun uid t s m => ⟨?_, ?_⟩⟩
  · exact optionButtonLabels_addOptionButtons (addOptionButtons s
      ["Red", "White"]) ["Rosé"]
  · simp [sendChat, sendChatStart, sendChatFinish, jsTruthyS,
      removeOptionButtons, optionButtonLabels_removeAll]
  · simp [sendChat, sendChatStart, sendChatFinish, jsTruthyS,
      removeOptionButtons, optionButtonLabels_removeAll]

/-! ### Claim C8 -/

/-- Claim C8 (confirmed): with the `wine_userId` key absent, the identity
store returns the stringified current time in milliseconds and writes it
back under the key; and in any one storage context, running it twice
returns the same value both times (the written value is a nonempty decimal
string, hence truthy on the second read). -/
theorem c8_identity_store_persistence :
    ∀ (now now2 : Nat) (stored : Option String),
      getOrCreateUserId none now = (Nat.repr now, some (Nat.repr now)) ∧
      (getOrCreateUserId (getOrCreateUserId stored now).2 now2).1
        = (getOrCreateUserId stored now).1 := by
  intro now now2 stored
  refine ⟨rfl, ?_⟩
  cases stored with
  | none =>
    simp [getOrCreateUserId, jsTruthyS, natRepr_ne_empty now]
  | some v =>
    by_cases hv : v = ""
    · subst hv
      simp [getOrCreateUserId, jsTruthyS, natRepr_ne_empty now]
    · simp [getOrCreateUserId, jsTruthyS, hv]

/-! ### Claim C9 -/

lemma runAddMessages_conversation (calls : List (String × String)) :
    ∀ s : StA,
      (runAddMessages s calls).conversation
        = s.conversation ++ calls.map fun c =>
            (⟨c.1 ++ ": " ++ c.2, jsToLower c.1⟩ : Para) := by
  induction calls with
  | nil => intro s; simp [runAddMessages]
  | cons c cs ih =>
    intro s
    have h1 : runAddMessages s (c :: cs)
        = runAddMessages (addMessage s c.1 c.2) cs := rfl
    rw [h1, ih]
    simp [addMessage]

lemma runAddMessagesB_conversation (calls : List (String × String)) :
    ∀ s : StB,
      (runAddMessagesB s calls).conversation
        = s.conversation ++ calls.map fun c =>
            NodeB.para (c.1 ++ ": " ++ c.2) (jsToLower c.1) := by
  induction calls with
  | nil => intro s; simp [runAddMessagesB]
  | cons c cs ih =>
    intro s
    have h1 : runAddMessagesB s (c :: cs)
        = runAddMessagesB (addMessageB s c.1 c.2) cs := rfl
    rw [h1, ih]
    simp [addMessageB]

/-- Claim C9 (confirmed): a sequence of `addMessage(sender, text)` calls is
append-only — in either variant, the lines after the run are exactly the
prior lines followed by one line per call in call order, each with text
`"{sender}: {text}"` and CSS class the lowercased sender; starting from the
empty transcript the line count equals the number of calls. -/
theorem c9_transcript_append_only :
    ∀ (calls : List (String × String)) (s : StA) (sB : StB),
      (runAddMessages s calls).conversation
        = s.conversation ++ calls.map (fun c =>
            (⟨c.1 ++ ": " ++ c.2, jsToLower c.1⟩ : Para)) ∧
      (runAddMessagesB sB calls).conversation
        = sB.conversation ++ calls.map (fun c =>
            NodeB.para (c.1 ++ ": " ++ c.2) (jsToLower c.1)) ∧
      ((runAddMessages sReady calls).conversation).length = calls.length := by
  intro calls s sB
  refine ⟨runAddMessages_conversation calls s,
    runAddMessagesB_conversation calls sB, ?_⟩
  rw [runAddMessages_conversation calls sReady]
  simp [sReady]

/-! ### Claim C10 -/

/-- Claim C10 (confirmed): in both variants, submitting when the trimmed
input is empty is a complete no-op (no transcript line, no request); when
it is nonempty, the handler appends the `You` line and clears the input
field to `""` before handing the trimmed text to the network call. -/
theorem c10_submit_trims_and_clears :
    ∀ (uid : String) (s : StA) (o : Except Unit RespAns)
      (co : Except Unit RespNQ) (sB : StB) (oB : Except Unit RespConv),
      (jsTrim s.inputValue = "" → handleSubmit uid s o co = (s, [])) ∧
      (jsTrim s.inputValue ≠ "" →
        handleSubmit uid s o co
          = sendAnswer uid (jsTrim s.inputValue)
              { addMessage s "You" (jsTrim s.inputValue) with
                  inputValue := "" } o co) ∧
      (jsTrim sB.inputValue = "" → handleSend uid sB oB = (sB, [])) ∧
      (jsTrim sB.inputValue ≠ "" →
        handleSend uid sB oB
          = sendChat uid (jsTrim sB.inputValue)
              { addMessageB sB "You" (jsTrim sB.inputValue) with
                  inputValue := "" } oB) := by
  intro uid s o co sB oB
  refine ⟨fun h => ?_, fun h => ?_, fun h => ?_, fun h => ?_⟩ <;>
    simp [handleSubmit, handleSend, h]

/-- Concrete instances of claim C10: an all-whitespace input is dropped,
and a nonempty one reaches the network call with the input already
cleared. -/
theorem c10_submit_trims_and_clears_witness :
    (handleSubmit "u" { sReady with inputValue := "  " } (.error ())
        (.error ()) = ({ sReady with inputValue := "  " }, [])) ∧
    (handleSubmit "u" sMidSession (.error ()) (.error ())
      = sendAnswer "u" (jsTrim sMidSession.inputValue)
          { addMessage sMidSession "You" (jsTrim sMidSession.inputValue) with
              inputValue := "" } (.error ()) (.error ())) ∧
    (handleSend "u" sB0 (.error ()) = (sB0, [])) ∧
    (handleSend "u" { sB0 with inputValue := " hi " } (.error ())
      = sendChat "u" (jsTrim { sB0 with inputValue := " hi " }.inputValue)
          { addMessageB { sB0 with inputValue := " hi " } "You"
              (jsTrim { sB0 with inputValue := " hi " }.inputValue) with
              inputValue := "" } (.error ())) :=
  ⟨(c10_submit_trims_and_clears "u" { sReady with inputValue := "  " }
      (.error ()) (.error ()) sB0 (.error ())).1 (by decide),
   (c10_submit_trims_and_clears "u" sMidSession (.error ()) (.error ()) sB0
      (.error ())).2.1 (by decide),
   (c10_submit_trims_and_clears "u" sReady (.error ()) (.error ()) sB0
      (.error ())).2.2.1 (by decide),
   (c10_submit_trims_and_clears "u" sReady (.error ()) (.error ())
      { sB0 with inputValue := " hi " } (.error ())).2.2.2 (by decide)⟩
